import Mathlib

/-!
Verification development for the alemian-saga engine core
(`src/alemian-saga-core/src/detail.rs`).

Shallow embedding conventions:
* `MapDistance` (Rust `u32`) is embedded as `ℕ`; subtraction is Lean's
  truncated `Nat` subtraction, and every subtraction the code performs is
  behind a guard that rules out underflow on the inputs the theorems talk
  about.  Where the code can wrap (the addition inside `get_map_pos`),
  the embedding reduces modulo `2 ^ 32` explicitly.
* `ScreenDistance` (continuous screen space; `f64` on the web platform) is
  embedded as `ℚ`.  `MouseDistance` (`i32` on the web platform) is `ℤ`.
* `Instant`/`Duration` are embedded as `ℚ`, counted in nanoseconds;
  `duration_between a b = b - a`.
* Images, files and the platform are abstracted by type parameters; the
  drawing side effects of a handler are reified as a list of `Draw` calls.
-/

namespace AlemianSaga

/-- 2D vector in one coordinate domain.  The struct itself lives in the crate
root (not under `src/`); its shape `{x, y}` is modelled from the spec §3 and
is pinned by every use in `detail.rs`. -/
structure Vec2 (α : Type) where
  x : α
  y : α
deriving Repr, DecidableEq

instance {α : Type} [Add α] : Add (Vec2 α) where
  add a b := ⟨a.x + b.x, a.y + b.y⟩

instance {α : Type} [Sub α] : Sub (Vec2 α) where
  sub a b := ⟨a.x - b.x, a.y - b.y⟩

theorem Vec2.add_x {α : Type} [Add α] (a b : Vec2 α) :
    (a + b).x = a.x + b.x := rfl

theorem Vec2.add_y {α : Type} [Add α] (a b : Vec2 α) :
    (a + b).y = a.y + b.y := rfl

theorem Vec2.sub_x {α : Type} [Sub α] (a b : Vec2 α) :
    (a - b).x = a.x - b.x := rfl

theorem Vec2.sub_y {α : Type} [Sub α] (a b : Vec2 α) :
    (a - b).y = a.y - b.y := rfl

namespace Vec2

/-- `Vector::piecewise_divide` (detail.rs), specialised to `ℚ`; the generic
`Into`-conversion of the right-hand side is performed by the caller. -/
def pdiv (a b : Vec2 ℚ) : Vec2 ℚ := ⟨a.x / b.x, a.y / b.y⟩

/-- `Vector::piecewise_multiply` (detail.rs), specialised to `ℚ`. -/
def pmul (a b : Vec2 ℚ) : Vec2 ℚ := ⟨a.x * b.x, a.y * b.y⟩

/-- `impl Div<T> for Vector<T>` (detail.rs): componentwise scalar division. -/
def divScalar (a : Vec2 ℚ) (r : ℚ) : Vec2 ℚ := ⟨a.x / r, a.y / r⟩

/-- Lossless `Vector::cast` from map space (`u32`) into screen space. -/
def qcast (v : Vec2 ℕ) : Vec2 ℚ := ⟨(v.x : ℚ), (v.y : ℚ)⟩

/-- Lossless `Vector::cast` from mouse space (`i32`) into screen space. -/
def icast (v : Vec2 ℤ) : Vec2 ℚ := ⟨(v.x : ℚ), (v.y : ℚ)⟩

end Vec2

/-- `2 ^ 32`, the number of `u32` values. -/
def u32Bound : ℕ := 4294967296

/-- Scalar half of `Vector::lossy_cast::<u32>`: the `num_traits` float to
`u32` conversion succeeds iff `-1 < q < 2^32` and truncates toward zero
(so values in `(-1, 0)` become `0`). -/
def lossyCastU32 (q : ℚ) : Option ℕ :=
  if -1 < q ∧ q < (u32Bound : ℚ) then some q.floor.toNat else none

/-- `Vector::lossy_cast::<u32>` (detail.rs): fails if either component is
not representable. -/
def Vec2.lossyCast (v : Vec2 ℚ) : Option (Vec2 ℕ) :=
  match lossyCastU32 v.x, lossyCastU32 v.y with
  | some x, some y => some ⟨x, y⟩
  | _, _ => none

/-- `Rectangle<T>` (detail.rs). -/
structure Rect (α : Type) where
  top_left : Vec2 α
  size : Vec2 α
deriving Repr, DecidableEq

namespace Rect

def top (r : Rect ℕ) : ℕ := r.top_left.y
def left (r : Rect ℕ) : ℕ := r.top_left.x
def width (r : Rect ℕ) : ℕ := r.size.x
def height (r : Rect ℕ) : ℕ := r.size.y
def bottom (r : Rect ℕ) : ℕ := r.top + r.height
def right (r : Rect ℕ) : ℕ := r.left + r.width

end Rect

/-- `serialization::TileType` (crate root; shape pinned by `get_tile` and the
image-fetch loop in detail.rs): a name plus an image path. -/
structure TileType where
  name : String
  image : String
deriving Repr, DecidableEq

/-- `Tile` (detail.rs): a resolved grid cell. -/
structure Tile (Img : Type) where
  image : Option Img
  name : String
deriving Repr, DecidableEq

/-- `ndarray::Array2` as used by detail.rs: row/column counts plus a cell
lookup (`data row col`).  Rust indexing out of bounds panics; the model is
total, and the theorems only inspect in-bounds cells. -/
structure Grid (α : Type) where
  rows : ℕ
  cols : ℕ
  data : ℕ → ℕ → α

/-- `Array2::map`: elementwise, dimensions preserved. -/
def Grid.map {α β : Type} (f : α → β) (g : Grid α) : Grid β :=
  ⟨g.rows, g.cols, fun r c => f (g.data r c)⟩

/-- `get_tile` (detail.rs lines 121-131): resolve a tile-type index against
the tile-type table and the image map; `none` iff the index is out of range.
The `HashMap<&str, Image>` is modelled as a function `String → Option Img`. -/
def get_tile {Img : Type} (image_map : String → Option Img)
    (tile_types : List TileType) (type_id : ℕ) : Option (Tile Img) :=
  (tile_types.get? type_id).map fun tt => ⟨image_map tt.image, tt.name⟩

/-- `Error` (detail.rs): an error message.  `impl<E: ToString> From<E>` is
modelled by having the underlying failures carry their textual form
directly, so conversion keeps the string. -/
structure GameError where
  msg : String
deriving Repr, DecidableEq

/-- Game state (detail.rs `struct Game`).  The platform handle is replaced
by the ambient `Env`; everything else is carried verbatim. -/
structure Game (Img : Type) where
  cursor_pos : Vec2 ℕ
  map : Grid (Tile Img)
  cursor_image : Option Img
  infobar_image : Option Img
  screen : Rect ℕ
  last_mouse_pan : ℚ

/-- Ambient platform observations an event handler makes: the screen size
(`Platform::get_screen_size` / `get_height`) and the current instant
(`Platform::now`), in nanoseconds. -/
structure Env where
  screenSize : Vec2 ℚ
  now : ℚ

/-- A reified `Platform` drawing call. -/
inductive Draw (Img : Type) where
  | attempt (img : Option Img) (rect : Rect ℚ)
  | drawText (s : String) (offset : Vec2 ℚ) (maxWidth : ℚ)
deriving Repr, DecidableEq

namespace Game

variable {Img : Type}

/-- `Game::get_tile_size`: screen size piecewise-divided by the viewport
extent. -/
def get_tile_size (env : Env) (g : Game Img) : Vec2 ℚ :=
  env.screenSize.pdiv g.screen.size.qcast

/-- `Game::get_tile`: the map cell under a position (`map[[pos.y, pos.x]]`). -/
def tileAt (g : Game Img) (pos : Vec2 ℕ) : Tile Img :=
  g.map.data pos.y pos.x

/-- `Game::get_screen_pos`: the screen rectangle of a tile coordinate. -/
def get_screen_pos (env : Env) (g : Game Img) (pos : Vec2 ℕ) : Rect ℚ :=
  let tile_size := g.get_tile_size env
  ⟨tile_size.pmul (pos - g.screen.top_left).qcast, tile_size⟩

/-- `Game::get_map_size`: `(columns, rows)` of the grid. -/
def get_map_size (g : Game Img) : Vec2 ℕ :=
  ⟨g.map.cols, g.map.rows⟩

/-- The screen-space core of `Game::get_map_pos` (everything after the
lossless `MouseDistance → ScreenDistance` cast).  The `u32` addition of the
viewport origin wraps modulo `2 ^ 32` as in release-mode Rust. -/
def get_map_pos_screen (env : Env) (g : Game Img) (screen_pos : Vec2 ℚ) :
    Option (Vec2 ℕ) :=
  let pos_on_screen := screen_pos.pdiv (g.get_tile_size env)
  pos_on_screen.lossyCast.map fun v =>
    ⟨(v.x + g.screen.top_left.x) % u32Bound, (v.y + g.screen.top_left.y) % u32Bound⟩

/-- `Game::get_map_pos`: mouse position to map coordinate. -/
def get_map_pos (env : Env) (g : Game Img) (pos : Vec2 ℤ) : Option (Vec2 ℕ) :=
  g.get_map_pos_screen env pos.icast

/-- The drawing calls of `Game::draw_cursor`. -/
def draw_cursor_calls (env : Env) (g : Game Img) : List (Draw Img) :=
  [.attempt g.cursor_image (g.get_screen_pos env g.cursor_pos)]

/-- The drawing calls of `Game::draw_infobar`.  The constants are the
hard-coded ratios of detail.rs: height ratio 15, aspect 4, text offset
ratio 4, text end `from_f64(0.75)` = 3/4. -/
def draw_infobar_calls (env : Env) (g : Game Img) : List (Draw Img) :=
  let height := env.screenSize.y / 15
  let size : Vec2 ℚ := ⟨height * 4, height⟩
  let position : Rect ℚ := ⟨⟨0, 0⟩, size⟩
  let offset_scalar := size.y / 4
  [.attempt g.infobar_image position,
   .drawText (g.tileAt g.cursor_pos).name ⟨offset_scalar, offset_scalar⟩
     (size.x * (3 / 4))]

/-- `Game::move_cursor`: erase the old cursor tile (redraw its terrain
image), move the cursor, draw it, redraw the infobar. -/
def move_cursor (env : Env) (g : Game Img) (pos : Vec2 ℕ) :
    Game Img × List (Draw Img) :=
  let old_pos := g.cursor_pos
  let g' := { g with cursor_pos := pos }
  (g', .attempt (g.tileAt old_pos).image (g.get_screen_pos env old_pos) ::
        (g'.draw_cursor_calls env ++ g'.draw_infobar_calls env))

/-- The drawing calls of `Game::redraw`: every visible cell of the slice
`[top_left, top_left + size)` in row-major order, then the cursor, then the
infobar.  (The `lossy_cast::<usize>` of the `u32` bounds always succeeds, so
the `expect`s are elided.) -/
def redraw_calls (env : Env) (g : Game Img) : List (Draw Img) :=
  ((List.range g.screen.size.y).flatMap fun r =>
    (List.range g.screen.size.x).map fun c =>
      let map_pos : Vec2 ℕ := Vec2.mk c r + g.screen.top_left
      Draw.attempt (g.tileAt map_pos).image (g.get_screen_pos env map_pos))
  ++ g.draw_cursor_calls env ++ g.draw_infobar_calls env

end Game

/-- The event vocabulary handled by the processing loop of `run_internal`
(the match at detail.rs lines 331-438; it has no `ZoomOut` arm). -/
inductive GEvent where
  | right
  | left
  | up
  | down
  | zoomIn
  | mouseMove (pos : Vec2 ℤ)

/-- `P::nanoseconds(100000000)`: the mouse-pan debounce threshold, 100 ms in
nanoseconds. -/
def mouse_pan_delay : ℚ := 100000000

namespace Game

variable {Img : Type}

/-- The edge-pan block of the `Event::MouseMove` arm (detail.rs lines
408-431): debounced, with the four edge checks in priority order top,
bottom, left, right; on the first match shift the viewport origin one tile,
redraw fully and reset `last_mouse_pan`. -/
def edge_pan (env : Env) (g : Game Img) (mouse_pos : Vec2 ℤ) :
    Game Img × List (Draw Img) :=
  if mouse_pan_delay < env.now - g.last_mouse_pan then
    let screen_pos := mouse_pos.icast
    let half_tile_size := (g.get_tile_size env).divScalar 2
    let near_end := env.screenSize - half_tile_size
    let map_size := g.get_map_size
    if screen_pos.y < half_tile_size.y ∧ g.screen.top > 0 then
      let g' := { g with
        screen := { g.screen with
          top_left := ⟨g.screen.top_left.x, g.screen.top_left.y - 1⟩ },
        last_mouse_pan := env.now }
      (g', g'.redraw_calls env)
    else if screen_pos.y > near_end.y ∧ g.screen.bottom < map_size.y then
      let g' := { g with
        screen := { g.screen with
          top_left := ⟨g.screen.top_left.x, g.screen.top_left.y + 1⟩ },
        last_mouse_pan := env.now }
      (g', g'.redraw_calls env)
    else if screen_pos.x < half_tile_size.x ∧ g.screen.left > 0 then
      let g' := { g with
        screen := { g.screen with
          top_left := ⟨g.screen.top_left.x - 1, g.screen.top_left.y⟩ },
        last_mouse_pan := env.now }
      (g', g'.redraw_calls env)
    else if screen_pos.x > near_end.x ∧ g.screen.right < map_size.x then
      let g' := { g with
        screen := { g.screen with
          top_left := ⟨g.screen.top_left.x + 1, g.screen.top_left.y⟩ },
        last_mouse_pan := env.now }
      (g', g'.redraw_calls env)
    else (g, [])
  else (g, [])

/-- The cursor-tracking block of the `Event::MouseMove` arm (detail.rs lines
432-436): if the lossy conversion to a map coordinate succeeds and the
coordinate is within the map, move the cursor there (incremental redraw). -/
def cursor_track (env : Env) (g : Game Img) (mouse_pos : Vec2 ℤ) :
    Game Img × List (Draw Img) :=
  match g.get_map_pos env mouse_pos with
  | some p =>
      if p.x ≤ g.map.cols - 1 ∧ p.y ≤ g.map.rows - 1 then
        g.move_cursor env p
      else (g, [])
  | none => (g, [])

end Game

/-- One iteration of the event-processing loop of `run_internal` (detail.rs
lines 331-438).  `last_column`/`last_row` are computed from the grid, which
no handler mutates, so reading them from the current state coincides with
the one-time computation before the loop. -/
def step {Img : Type} (env : Env) (e : GEvent) (g : Game Img) :
    Game Img × List (Draw Img) :=
  let last_column := g.map.cols - 1
  let last_row := g.map.rows - 1
  match e with
  | .right =>
      if g.cursor_pos.x < last_column then
        if g.cursor_pos.x = g.screen.right - 1 then
          let g' := { g with
            cursor_pos := ⟨g.cursor_pos.x + 1, g.cursor_pos.y⟩,
            screen := { g.screen with
              top_left := ⟨g.screen.top_left.x + 1, g.screen.top_left.y⟩ } }
          (g', g'.redraw_calls env)
        else
          g.move_cursor env ⟨g.cursor_pos.x + 1, g.cursor_pos.y⟩
      else (g, [])
  | .left =>
      if 0 < g.cursor_pos.x then
        if g.cursor_pos.x = g.screen.left then
          let g' := { g with
            cursor_pos := ⟨g.cursor_pos.x - 1, g.cursor_pos.y⟩,
            screen := { g.screen with
              top_left := ⟨g.screen.top_left.x - 1, g.screen.top_left.y⟩ } }
          (g', g'.redraw_calls env)
        else
          g.move_cursor env ⟨g.cursor_pos.x - 1, g.cursor_pos.y⟩
      else (g, [])
  | .up =>
      if 0 < g.cursor_pos.y then
        if g.cursor_pos.y = g.screen.top then
          let g' := { g with
            cursor_pos := ⟨g.cursor_pos.x, g.cursor_pos.y - 1⟩,
            screen := { g.screen with
              top_left := ⟨g.screen.top_left.x, g.screen.top_left.y - 1⟩ } }
          (g', g'.redraw_calls env)
        else
          g.move_cursor env ⟨g.cursor_pos.x, g.cursor_pos.y - 1⟩
      else (g, [])
  | .down =>
      if g.cursor_pos.y < last_row then
        if g.cursor_pos.y = g.screen.bottom - 1 then
          let g' := { g with
            cursor_pos := ⟨g.cursor_pos.x, g.cursor_pos.y + 1⟩,
            screen := { g.screen with
              top_left := ⟨g.screen.top_left.x, g.screen.top_left.y + 1⟩ } }
          (g', g'.redraw_calls env)
        else
          g.move_cursor env ⟨g.cursor_pos.x, g.cursor_pos.y + 1⟩
      else (g, [])
  | .zoomIn =>
      let tile_size := g.get_tile_size env
      let cursor_pos_on_screen := g.cursor_pos - g.screen.top_left
      let sy :=
        if tile_size.x ≥ tile_size.y ∧ g.screen.size.y > 1 then
          g.screen.size.y - 1
        else g.screen.size.y
      let ty :=
        if tile_size.x ≥ tile_size.y ∧ g.screen.size.y > 1 then
          if cursor_pos_on_screen.y > (g.screen.size.y - 1) / 2 then
            g.screen.top_left.y + 1
          else g.screen.top_left.y
        else g.screen.top_left.y
      let sx :=
        if tile_size.y ≥ tile_size.x ∧ g.screen.size.x > 1 then
          g.screen.size.x - 1
        else g.screen.size.x
      let tx :=
        if tile_size.y ≥ tile_size.x ∧ g.screen.size.x > 1 then
          if cursor_pos_on_screen.x > (g.screen.size.x - 1) / 2 then
            g.screen.top_left.x + 1
          else g.screen.top_left.x
        else g.screen.top_left.x
      let g' := { g with screen := ⟨⟨tx, ty⟩, ⟨sx, sy⟩⟩ }
      (g', g'.redraw_calls env)
  | .mouseMove pos =>
      let panned := g.edge_pan env pos
      let tracked := panned.1.cursor_track env pos
      (tracked.1, panned.2 ++ tracked.2)

/-- The initial game state constructed by `run_internal` (detail.rs lines
312-323): cursor at the origin, viewport covering the whole map. -/
def initGame {Img : Type} (map : Grid (Tile Img)) (cursor_image : Option Img)
    (infobar_image : Option Img) (t0 : ℚ) : Game Img :=
  { cursor_pos := ⟨0, 0⟩
    map := map
    cursor_image := cursor_image
    infobar_image := infobar_image
    screen := ⟨⟨0, 0⟩, ⟨map.cols, map.rows⟩⟩
    last_mouse_pan := t0 }

/-- The hard-coded asset paths of detail.rs. -/
def MAP_FILE : String := "map.map"
def CURSOR_IMAGE : String := "cursor.png"
def INFO_BAR_IMAGE : String := "infobar.png"

/-- `serialization::Map` (crate root; shape pinned by its uses in
`run_internal`): the tile-type table and the grid of type indices. -/
structure MapFile where
  tile_types : List TileType
  map : Grid ℕ

/-- An asset fetch issued through the `Platform` during bootstrap. -/
inductive Fetch where
  | file (path : String)
  | image (path : String)
deriving Repr, DecidableEq

/-- The per-cell closure of `run_internal`'s map generation (detail.rs lines
294-303): resolve the tile-type index; on failure log
`"Error: Invalid map file"` and substitute the `{image: None, name: "ERROR"}`
placeholder.  The second component is the list of emitted log messages. -/
def resolveCell {Img : Type} (image_map : String → Option Img)
    (tile_types : List TileType) (i : ℕ) : Tile Img × List String :=
  match get_tile image_map tile_types i with
  | some tile => (tile, [])
  | none => (⟨none, "ERROR"⟩, ["Error: Invalid map file"])

/-- The map generation of `run_internal`: resolve every grid cell. -/
def generateMap {Img : Type} (image_map : String → Option Img)
    (tile_types : List TileType) (grid : Grid ℕ) : Grid (Tile Img) :=
  grid.map fun i => (resolveCell image_map tile_types i).1

/-- The image-map construction of `run_internal` (detail.rs lines 281-291):
await the per-tile-type fetch and insert the successful ones, keyed by path,
in tile-type order (a later insert for the same path wins, as in
`HashMap::insert`). -/
def buildImageMap {Img : Type} (fetch_image : String → Option Img)
    (tile_types : List TileType) : String → Option Img :=
  tile_types.foldl
    (fun image_map tt =>
      match fetch_image tt.image with
      | some img => fun s => if s = tt.image then some img else image_map s
      | none => image_map)
    (fun _ => none)

/-- The platform responses the bootstrap consumes: the map-file fetch result
(its error already in textual form, as `From<E: ToString> for Error` keeps
only `to_string`), the decoder, and the image fetch results by path. -/
structure BootInput (F Img : Type) where
  file_result : Except String F
  decode : F → Except String MapFile
  fetch_image : String → Option Img

/-- The bootstrap phase of `run_internal` (detail.rs lines 269-325): issue
the map-file, cursor-image and infobar-image fetches, decode the map file,
issue one image fetch per tile type, build the image map, generate the map,
construct the initial `Game` and redraw.  Returns the fetches issued and
either the error or the initial state with its first-redraw calls. -/
def runBootstrap {F Img : Type} (inp : BootInput F Img) (env : Env) :
    List Fetch × Except GameError (Game Img × List (Draw Img)) :=
  let baseFetches := [Fetch.file MAP_FILE, Fetch.image CURSOR_IMAGE,
    Fetch.image INFO_BAR_IMAGE]
  match inp.file_result with
  | .error e => (baseFetches, .error ⟨e⟩)
  | .ok f =>
    match inp.decode f with
    | .error e => (baseFetches, .error ⟨e⟩)
    | .ok map_file =>
      let tileFetches := map_file.tile_types.map fun tt => Fetch.image tt.image
      let image_map := buildImageMap inp.fetch_image map_file.tile_types
      let map := generateMap image_map map_file.tile_types map_file.map
      let game := initGame map (inp.fetch_image CURSOR_IMAGE)
        (inp.fetch_image INFO_BAR_IMAGE) env.now
      (baseFetches ++ tileFetches, .ok (game, game.redraw_calls env))

/-- `run_internal` in full: bootstrap, then fold the event loop over the
queued events (each paired with the platform observations made while
handling it), accumulating every drawing call.  On a bootstrap error the
loop is never entered and no drawing call is made. -/
def run_internal {F Img : Type} (inp : BootInput F Img) (env0 : Env)
    (events : List (Env × GEvent)) :
    List Fetch × List (Draw Img) × Except GameError Unit :=
  match runBootstrap inp env0 with
  | (fetches, .error e) => (fetches, [], .error e)
  | (fetches, .ok (game, draws)) =>
      let result := events.foldl
        (fun (acc : Game Img × List (Draw Img)) (ev : Env × GEvent) =>
          let stepped := step ev.1 ev.2 acc.1
          (stepped.1, acc.2 ++ stepped.2))
        (game, draws)
      (fetches, result.2, .ok ())

/-- States reachable from `g0` by event sequences whose steps all satisfy
the filter `P`. -/
inductive ReachableFrom {Img : Type} (g0 : Game Img)
    (P : Env → GEvent → Prop) : Game Img → Prop where
  | init : ReachableFrom g0 P g0
  | tail (env : Env) (e : GEvent) (g : Game Img) :
      ReachableFrom g0 P g → P env e → ReachableFrom g0 P (step env e g).1

/-- Spec §8 viewport containment: the viewport lies within the map
(`top_left ≥ 0` is automatic for `ℕ` and restated in the theorems) and each
axis extent is at least 1. -/
def viewportInMap {Img : Type} (g : Game Img) : Prop :=
  g.screen.top_left.x + g.screen.size.x ≤ g.map.cols ∧
  g.screen.top_left.y + g.screen.size.y ≤ g.map.rows ∧
  1 ≤ g.screen.size.x ∧ 1 ≤ g.screen.size.y

instance {Img : Type} (g : Game Img) : Decidable (viewportInMap g) := by
  unfold viewportInMap; infer_instance

/-- Spec §8 cursor containment: the cursor lies in the half-open viewport
rectangle `[screen.top_left, screen.top_left + screen.size)`. -/
def cursorInViewport {Img : Type} (g : Game Img) : Prop :=
  g.screen.top_left.x ≤ g.cursor_pos.x ∧
  g.cursor_pos.x < g.screen.top_left.x + g.screen.size.x ∧
  g.screen.top_left.y ≤ g.cursor_pos.y ∧
  g.cursor_pos.y < g.screen.top_left.y + g.screen.size.y

instance {Img : Type} (g : Game Img) : Decidable (cursorInViewport g) := by
  unfold cursorInViewport; infer_instance

section StructuralLemmas

variable {Img : Type}

theorem move_cursor_fst (env : Env) (g : Game Img) (p : Vec2 ℕ) :
    (g.move_cursor env p).1 = { g with cursor_pos := p } := rfl

theorem cursor_track_fst (env : Env) (g : Game Img) (pos : Vec2 ℤ) :
    (g.cursor_track env pos).1 =
      { g with cursor_pos := (g.cursor_track env pos).1.cursor_pos } := by
  unfold Game.cursor_track
  rcases h : g.get_map_pos env pos with - | p
  · rfl
  · by_cases hb : p.x ≤ g.map.cols - 1 ∧ p.y ≤ g.map.rows - 1 <;>
      simp [hb, move_cursor_fst]

theorem edge_pan_cursor_pos (env : Env) (g : Game Img) (pos : Vec2 ℤ) :
    (g.edge_pan env pos).1.cursor_pos = g.cursor_pos := by
  unfold Game.edge_pan
  dsimp only
  split
  · split
    · rfl
    · split
      · rfl
      · split
        · rfl
        · split <;> rfl
  · rfl

theorem edge_pan_map (env : Env) (g : Game Img) (pos : Vec2 ℤ) :
    (g.edge_pan env pos).1.map = g.map := by
  unfold Game.edge_pan
  dsimp only
  split
  · split
    · rfl
    · split
      · rfl
      · split
        · rfl
        · split <;> rfl
  · rfl

theorem edge_pan_cursor_image (env : Env) (g : Game Img) (pos : Vec2 ℤ) :
    (g.edge_pan env pos).1.cursor_image = g.cursor_image := by
  unfold Game.edge_pan
  dsimp only
  split
  · split
    · rfl
    · split
      · rfl
      · split
        · rfl
        · split <;> rfl
  · rfl

theorem edge_pan_infobar_image (env : Env) (g : Game Img) (pos : Vec2 ℤ) :
    (g.edge_pan env pos).1.infobar_image = g.infobar_image := by
  unfold Game.edge_pan
  dsimp only
  split
  · split
    · rfl
    · split
      · rfl
      · split
        · rfl
        · split <;> rfl
  · rfl

theorem edge_pan_size (env : Env) (g : Game Img) (pos : Vec2 ℤ) :
    (g.edge_pan env pos).1.screen.size = g.screen.size := by
  unfold Game.edge_pan
  dsimp only
  split
  · split
    · rfl
    · split
      · rfl
      · split
        · rfl
        · split <;> rfl
  · rfl

end StructuralLemmas


section ZoomInShape

variable {Img : Type}

theorem zoomIn_size_y (env : Env) (g : Game Img) :
    (step env .zoomIn g).1.screen.size.y =
      if (g.get_tile_size env).x ≥ (g.get_tile_size env).y ∧ g.screen.size.y > 1
      then g.screen.size.y - 1 else g.screen.size.y := rfl

theorem zoomIn_size_x (env : Env) (g : Game Img) :
    (step env .zoomIn g).1.screen.size.x =
      if (g.get_tile_size env).y ≥ (g.get_tile_size env).x ∧ g.screen.size.x > 1
      then g.screen.size.x - 1 else g.screen.size.x := rfl

theorem zoomIn_top_left_y (env : Env) (g : Game Img) :
    (step env .zoomIn g).1.screen.top_left.y =
      if (g.get_tile_size env).x ≥ (g.get_tile_size env).y ∧ g.screen.size.y > 1
      then
        if (g.cursor_pos - g.screen.top_left).y > (g.screen.size.y - 1) / 2
        then g.screen.top_left.y + 1 else g.screen.top_left.y
      else g.screen.top_left.y := rfl

theorem zoomIn_top_left_x (env : Env) (g : Game Img) :
    (step env .zoomIn g).1.screen.top_left.x =
      if (g.get_tile_size env).y ≥ (g.get_tile_size env).x ∧ g.screen.size.x > 1
      then
        if (g.cursor_pos - g.screen.top_left).x > (g.screen.size.x - 1) / 2
        then g.screen.top_left.x + 1 else g.screen.top_left.x
      else g.screen.top_left.x := rfl

end ZoomInShape

section InvariantPreservation

variable {Img : Type}

theorem cursor_track_map (env : Env) (g : Game Img) (pos : Vec2 ℤ) :
    (g.cursor_track env pos).1.map = g.map := by
  rw [cursor_track_fst]

theorem cursor_track_screen (env : Env) (g : Game Img) (pos : Vec2 ℤ) :
    (g.cursor_track env pos).1.screen = g.screen := by
  rw [cursor_track_fst]

theorem step_map (env : Env) (e : GEvent) (g : Game Img) :
    (step env e g).1.map = g.map := by
  cases e with
  | right =>
      simp only [step]
      split
      · split
        · rfl
        · rfl
      · rfl
  | left =>
      simp only [step]
      split
      · split
        · rfl
        · rfl
      · rfl
  | up =>
      simp only [step]
      split
      · split
        · rfl
        · rfl
      · rfl
  | down =>
      simp only [step]
      split
      · split
        · rfl
        · rfl
      · rfl
  | zoomIn => rfl
  | mouseMove pos =>
      show ((g.edge_pan env pos).1.cursor_track env pos).1.map = g.map
      rw [cursor_track_map, edge_pan_map]

theorem edge_pan_viewportInMap (env : Env) (g : Game Img) (pos : Vec2 ℤ)
    (h : viewportInMap g) : viewportInMap (g.edge_pan env pos).1 := by
  obtain ⟨h1, h2, h3, h4⟩ := h
  unfold Game.edge_pan
  dsimp only
  split
  · split
    · next hc =>
      obtain ⟨-, ht⟩ := hc
      simp only [Rect.top] at ht
      refine ⟨?_, ?_, ?_, ?_⟩ <;> dsimp only <;> omega
    · split
      · next hc =>
        obtain ⟨-, hb⟩ := hc
        simp only [Rect.bottom, Rect.top, Rect.height,
          Game.get_map_size] at hb
        refine ⟨?_, ?_, ?_, ?_⟩ <;> dsimp only <;> omega
      · split
        · next hc =>
          obtain ⟨-, hl⟩ := hc
          simp only [Rect.left] at hl
          refine ⟨?_, ?_, ?_, ?_⟩ <;> dsimp only <;> omega
        · split
          · next hc =>
            obtain ⟨-, hr⟩ := hc
            simp only [Rect.right, Rect.left, Rect.width,
              Game.get_map_size] at hr
            refine ⟨?_, ?_, ?_, ?_⟩ <;> dsimp only <;> omega
          · exact ⟨h1, h2, h3, h4⟩
  · exact ⟨h1, h2, h3, h4⟩

theorem step_viewportInMap (env : Env) (e : GEvent) (g : Game Img)
    (h : viewportInMap g) : viewportInMap (step env e g).1 := by
  obtain ⟨h1, h2, h3, h4⟩ := h
  cases e with
  | right =>
      simp only [step]
      split
      · next hc =>
        split
        · next he =>
          simp only [Rect.right, Rect.left, Rect.width] at he
          refine ⟨?_, ?_, ?_, ?_⟩ <;> dsimp only <;> omega
        · rw [move_cursor_fst]; exact ⟨h1, h2, h3, h4⟩
      · exact ⟨h1, h2, h3, h4⟩
  | left =>
      simp only [step]
      split
      · next hc =>
        split
        · next he =>
          simp only [Rect.left] at he
          refine ⟨?_, ?_, ?_, ?_⟩ <;> dsimp only <;> omega
        · rw [move_cursor_fst]; exact ⟨h1, h2, h3, h4⟩
      · exact ⟨h1, h2, h3, h4⟩
  | up =>
      simp only [step]
      split
      · next hc =>
        split
        · next he =>
          simp only [Rect.top] at he
          refine ⟨?_, ?_, ?_, ?_⟩ <;> dsimp only <;> omega
        · rw [move_cursor_fst]; exact ⟨h1, h2, h3, h4⟩
      · exact ⟨h1, h2, h3, h4⟩
  | down =>
      simp only [step]
      split
      · next hc =>
        split
        · next he =>
          simp only [Rect.bottom, Rect.top, Rect.height] at he
          refine ⟨?_, ?_, ?_, ?_⟩ <;> dsimp only <;> omega
        · rw [move_cursor_fst]; exact ⟨h1, h2, h3, h4⟩
      · exact ⟨h1, h2, h3, h4⟩
  | zoomIn =>
      have hm : (step env .zoomIn g).1.map = g.map := rfl
      unfold viewportInMap
      rw [hm, zoomIn_top_left_x env g, zoomIn_size_x env g,
        zoomIn_top_left_y env g, zoomIn_size_y env g]
      by_cases cx : (g.get_tile_size env).y ≥ (g.get_tile_size env).x ∧
          g.screen.size.x > 1 <;>
        by_cases cy : (g.get_tile_size env).x ≥ (g.get_tile_size env).y ∧
          g.screen.size.y > 1
      · have hx := cx.2
        have hy := cy.2
        simp only [cx, cy, if_true, if_false]
        split_ifs <;> omega
      · have hx := cx.2
        simp only [cx, cy, if_true, if_false]
        split_ifs <;> omega
      · have hy := cy.2
        simp only [cx, cy, if_true, if_false]
        split_ifs <;> omega
      · simp only [cx, cy, if_true, if_false]
        omega
  | mouseMove pos =>
      show viewportInMap ((g.edge_pan env pos).1.cursor_track env pos).1
      have hpan := edge_pan_viewportInMap env g pos ⟨h1, h2, h3, h4⟩
      unfold viewportInMap at hpan ⊢
      rw [cursor_track_screen, cursor_track_map]
      exact hpan

end InvariantPreservation


section CursorContainment

variable {Img : Type}

/-- An in-screen mouse report: the position, cast to screen space, lies in
`[0, screenSize)` on both axes, on a screen of positive size.  Non-mouse
events are unrestricted. -/
def mouseOnScreen : Env → GEvent → Prop
  | env, .mouseMove pos =>
      0 < env.screenSize.x ∧ 0 < env.screenSize.y ∧
      0 ≤ pos.x ∧ (pos.x : ℚ) < env.screenSize.x ∧
      0 ≤ pos.y ∧ (pos.y : ℚ) < env.screenSize.y
  | _, _ => True

theorem lossyCastU32_scaled (m : ℤ) (s : ℚ) (n : ℕ)
    (hm0 : 0 ≤ m) (hms : (m : ℚ) < s) (hs : 0 < s) (hn : 1 ≤ n)
    (hnb : n ≤ u32Bound) :
    ∃ k : ℕ, lossyCastU32 ((m : ℚ) / (s / (n : ℚ))) = some k ∧ k < n := by
  have hn0 : (0 : ℚ) < (n : ℚ) := by exact_mod_cast hn
  have hm0q : (0 : ℚ) ≤ (m : ℚ) := by exact_mod_cast hm0
  have hq0 : 0 ≤ (m : ℚ) / (s / (n : ℚ)) := by positivity
  have hqn : (m : ℚ) / (s / (n : ℚ)) < (n : ℚ) := by
    rw [div_div_eq_mul_div, div_lt_iff₀ hs]
    calc (m : ℚ) * (n : ℚ) < s * (n : ℚ) :=
          mul_lt_mul_of_pos_right hms hn0
      _ = (n : ℚ) * s := mul_comm _ _
  have hfl0 : 0 ≤ ⌊(m : ℚ) / (s / (n : ℚ))⌋ := Int.floor_nonneg.mpr hq0
  have hfln : ⌊(m : ℚ) / (s / (n : ℚ))⌋ < (n : ℤ) := by
    rw [Int.floor_lt]
    exact_mod_cast hqn
  have hnbq : (n : ℚ) ≤ (u32Bound : ℚ) := by exact_mod_cast hnb
  refine ⟨(⌊(m : ℚ) / (s / (n : ℚ))⌋).toNat, ?_, by omega⟩
  unfold lossyCastU32
  rw [if_pos ⟨by linarith, by linarith⟩]
  rfl

theorem get_map_pos_on_screen (env : Env) (g : Game Img) (pos : Vec2 ℤ)
    (hsx : 0 < env.screenSize.x) (hsy : 0 < env.screenSize.y)
    (hpx0 : 0 ≤ pos.x) (hpx : (pos.x : ℚ) < env.screenSize.x)
    (hpy0 : 0 ≤ pos.y) (hpy : (pos.y : ℚ) < env.screenSize.y)
    (hinv : viewportInMap g)
    (hbx : g.map.cols ≤ u32Bound) (hby : g.map.rows ≤ u32Bound) :
    ∃ p : Vec2 ℕ, g.get_map_pos env pos = some p ∧
      g.screen.top_left.x ≤ p.x ∧
      p.x < g.screen.top_left.x + g.screen.size.x ∧
      g.screen.top_left.y ≤ p.y ∧
      p.y < g.screen.top_left.y + g.screen.size.y := by
  obtain ⟨h1, h2, h3, h4⟩ := hinv
  obtain ⟨kx, hkx, hkxlt⟩ := lossyCastU32_scaled pos.x env.screenSize.x
    g.screen.size.x hpx0 hpx hsx h3 (by omega)
  obtain ⟨ky, hky, hkylt⟩ := lossyCastU32_scaled pos.y env.screenSize.y
    g.screen.size.y hpy0 hpy hsy h4 (by omega)
  refine ⟨⟨(kx + g.screen.top_left.x) % u32Bound,
          (ky + g.screen.top_left.y) % u32Bound⟩, ?_, ?_, ?_, ?_, ?_⟩
  · unfold Game.get_map_pos Game.get_map_pos_screen Game.get_tile_size
    dsimp only
    unfold Vec2.lossyCast
    rw [show (Vec2.icast pos).pdiv (env.screenSize.pdiv g.screen.size.qcast)
          = ⟨(pos.x : ℚ) / (env.screenSize.x / (g.screen.size.x : ℚ)),
             (pos.y : ℚ) / (env.screenSize.y / (g.screen.size.y : ℚ))⟩ from rfl]
    rw [hkx, hky]
    rfl
  · dsimp only
    rw [Nat.mod_eq_of_lt (by omega)]
    omega
  · dsimp only
    rw [Nat.mod_eq_of_lt (by omega)]
    omega
  · dsimp only
    rw [Nat.mod_eq_of_lt (by omega)]
    omega
  · dsimp only
    rw [Nat.mod_eq_of_lt (by omega)]
    omega

theorem cursor_track_moves (env : Env) (g : Game Img) (pos : Vec2 ℤ)
    (p : Vec2 ℕ) (hp : g.get_map_pos env pos = some p)
    (hx : p.x ≤ g.map.cols - 1) (hy : p.y ≤ g.map.rows - 1) :
    (g.cursor_track env pos).1 = { g with cursor_pos := p } := by
  unfold Game.cursor_track
  rw [hp]
  simp only [hx, hy, and_self, if_true, move_cursor_fst]

theorem step_cursorInViewport (env : Env) (e : GEvent) (g : Game Img)
    (hbx : g.map.cols ≤ u32Bound) (hby : g.map.rows ≤ u32Bound)
    (hinv : viewportInMap g) (hcur : cursorInViewport g)
    (hok : mouseOnScreen env e) : cursorInViewport (step env e g).1 := by
  obtain ⟨h1, h2, h3, h4⟩ := hinv
  obtain ⟨c1, c2, c3, c4⟩ := hcur
  cases e with
  | right =>
      simp only [step]
      split
      · next hc =>
        split
        · next he =>
          simp only [Rect.right, Rect.left, Rect.width] at he
          refine ⟨?_, ?_, ?_, ?_⟩ <;> dsimp only <;> omega
        · next he =>
          simp only [Rect.right, Rect.left, Rect.width] at he
          rw [move_cursor_fst]
          refine ⟨?_, ?_, ?_, ?_⟩ <;> dsimp only <;> omega
      · exact ⟨c1, c2, c3, c4⟩
  | left =>
      simp only [step]
      split
      · next hc =>
        split
        · next he =>
          simp only [Rect.left] at he
          refine ⟨?_, ?_, ?_, ?_⟩ <;> dsimp only <;> omega
        · next he =>
          simp only [Rect.left] at he
          rw [move_cursor_fst]
          refine ⟨?_, ?_, ?_, ?_⟩ <;> dsimp only <;> omega
      · exact ⟨c1, c2, c3, c4⟩
  | up =>
      simp only [step]
      split
      · next hc =>
        split
        · next he =>
          simp only [Rect.top] at he
          refine ⟨?_, ?_, ?_, ?_⟩ <;> dsimp only <;> omega
        · next he =>
          simp only [Rect.top] at he
          rw [move_cursor_fst]
          refine ⟨?_, ?_, ?_, ?_⟩ <;> dsimp only <;> omega
      · exact ⟨c1, c2, c3, c4⟩
  | down =>
      simp only [step]
      split
      · next hc =>
        split
        · next he =>
          simp only [Rect.bottom, Rect.top, Rect.height] at he
          refine ⟨?_, ?_, ?_, ?_⟩ <;> dsimp only <;> omega
        · next he =>
          simp only [Rect.bottom, Rect.top, Rect.height] at he
          rw [move_cursor_fst]
          refine ⟨?_, ?_, ?_, ?_⟩ <;> dsimp only <;> omega
      · exact ⟨c1, c2, c3, c4⟩
  | zoomIn =>
      have hcp : (step env .zoomIn g).1.cursor_pos = g.cursor_pos := rfl
      unfold cursorInViewport
      rw [hcp, zoomIn_top_left_x env g, zoomIn_size_x env g,
        zoomIn_top_left_y env g, zoomIn_size_y env g]
      simp only [Vec2.sub_x, Vec2.sub_y]
      by_cases cx : (g.get_tile_size env).y ≥ (g.get_tile_size env).x ∧
          g.screen.size.x > 1 <;>
        by_cases cy : (g.get_tile_size env).x ≥ (g.get_tile_size env).y ∧
          g.screen.size.y > 1
      · have hx := cx.2
        have hy := cy.2
        simp only [cx, cy, if_true, if_false]
        split_ifs <;> omega
      · have hx := cx.2
        simp only [cx, cy, if_true, if_false]
        split_ifs <;> omega
      · have hy := cy.2
        simp only [cx, cy, if_true, if_false]
        split_ifs <;> omega
      · simp only [cx, cy, if_true, if_false]
        omega
  | mouseMove pos =>
      obtain ⟨hsx, hsy, hpx0, hpx, hpy0, hpy⟩ := hok
      show cursorInViewport (((g.edge_pan env pos).1).cursor_track env pos).1
      have hinv1 : viewportInMap (g.edge_pan env pos).1 :=
        edge_pan_viewportInMap env g pos ⟨h1, h2, h3, h4⟩
      have hmap1 : (g.edge_pan env pos).1.map = g.map := edge_pan_map env g pos
      obtain ⟨p, hp, pa, pb, pc, pd⟩ :=
        get_map_pos_on_screen env (g.edge_pan env pos).1 pos hsx hsy
          hpx0 hpx hpy0 hpy hinv1 (by rw [hmap1]; exact hbx)
          (by rw [hmap1]; exact hby)
      obtain ⟨i1, i2, i3, i4⟩ := hinv1
      rw [hmap1] at i1 i2
      have hmv := cursor_track_moves env (g.edge_pan env pos).1 pos p hp
        (by rw [hmap1]; omega) (by rw [hmap1]; omega)
      rw [hmv]
      exact ⟨pa, pb, pc, pd⟩

end CursorContainment


section ClaimFixtures

/-- A nondescript tile used by the concrete test states. -/
def sampleTile : Tile Unit := ⟨none, "grass"⟩

/-- A 1x1 map for trivial witnesses. -/
def unitMap : Grid (Tile Unit) := ⟨1, 1, fun _ _ => sampleTile⟩

/-- The initial state over the 1x1 map. -/
def unitG0 : Game Unit := initGame unitMap none none 0

/-- A 3x3 map for the containment counterexample trace. -/
def threeMap : Grid (Tile Unit) := ⟨3, 3, fun _ _ => sampleTile⟩

/-- The initial state over the 3x3 map. -/
def threeG0 : Game Unit := initGame threeMap none none 0

/-- A 30x30 screen observed at instant `t`. -/
def env30 (t : ℚ) : Env := ⟨⟨30, 30⟩, t⟩

/-- The state after `ZoomIn, Down, Down, MouseMove (-20, 5)` from
`threeG0`, the mouse event observed 200ms after start. -/
def cexFinal : Game Unit :=
  (step (env30 200000000) (.mouseMove ⟨-20, 5⟩)
    (step (env30 0) .down
      (step (env30 0) .down
        (step (env30 0) .zoomIn threeG0).1).1).1).1

end ClaimFixtures

/-- C3: in every state reachable from the initial state (viewport covering
the whole map, cursor at the origin) by any sequence of events, the viewport
origin is componentwise nonnegative, the viewport fits inside the map, and
both viewport extents are at least one tile. -/
theorem viewport_containment_invariant {Img : Type}
    (m : Grid (Tile Img)) (ci ii : Option Img) (t0 : ℚ)
    (hx : 1 ≤ m.cols) (hy : 1 ≤ m.rows) (g : Game Img)
    (hr : ReachableFrom (initGame m ci ii t0) (fun _ _ => True) g) :
    (0 ≤ g.screen.top_left.x ∧ 0 ≤ g.screen.top_left.y) ∧
    g.screen.top_left.x + g.screen.size.x ≤ m.cols ∧
    g.screen.top_left.y + g.screen.size.y ≤ m.rows ∧
    1 ≤ g.screen.size.x ∧ 1 ≤ g.screen.size.y := by
  have key : viewportInMap g ∧ g.map = m := by
    induction hr with
    | init =>
        refine ⟨⟨?_, ?_, hx, hy⟩, rfl⟩ <;> dsimp only [initGame] <;> omega
    | tail env e g hr hp ih =>
        exact ⟨step_viewportInMap env e g ih.1,
          (step_map env e g).trans ih.2⟩
  obtain ⟨⟨k1, k2, k3, k4⟩, hm⟩ := key
  rw [hm] at k1 k2
  exact ⟨⟨Nat.zero_le _, Nat.zero_le _⟩, k1, k2, k3, k4⟩

/-- Witness for C3: the invariant instantiated at the initial state over the
1x1 map. -/
theorem viewport_containment_invariant_witness :
    (0 ≤ unitG0.screen.top_left.x ∧ 0 ≤ unitG0.screen.top_left.y) ∧
    unitG0.screen.top_left.x + unitG0.screen.size.x ≤ unitMap.cols ∧
    unitG0.screen.top_left.y + unitG0.screen.size.y ≤ unitMap.rows ∧
    1 ≤ unitG0.screen.size.x ∧ 1 ≤ unitG0.screen.size.y :=
  viewport_containment_invariant unitMap none none 0 (by decide) (by decide)
    unitG0 ReachableFrom.init

/-- C2 counterexample: a state reachable from the initial state of a 3x3 map
by the event sequence `ZoomIn, Down, Down, MouseMove (-20, 5)` (the mouse
event past the pan debounce) in which the cursor lies outside the viewport:
the upward edge pan moves the viewport off the cursor and the cursor
tracking does not fire because the lossy cast of the mouse position fails. -/
theorem cursor_containment_counterexample :
    ReachableFrom threeG0 (fun _ _ => True) cexFinal ∧
    ¬ cursorInViewport cexFinal := by
  constructor
  · exact ReachableFrom.tail _ _ _
      (ReachableFrom.tail _ _ _
        (ReachableFrom.tail _ _ _
          (ReachableFrom.tail _ _ _ ReachableFrom.init trivial) trivial)
        trivial) trivial
  · exact of_decide_eq_true (by with_unfolding_all rfl)

/-- C2 amended: cursor containment holds in every state reachable by
sequences of Right, Left, Up, Down, ZoomIn and MouseMove events in which
every MouseMove position lies on the screen (`[0, screenSize)` in screen
space on a positive screen). -/
theorem cursor_containment_invariant {Img : Type}
    (m : Grid (Tile Img)) (ci ii : Option Img) (t0 : ℚ)
    (hx : 1 ≤ m.cols) (hy : 1 ≤ m.rows)
    (hbx : m.cols ≤ u32Bound) (hby : m.rows ≤ u32Bound) (g : Game Img)
    (hr : ReachableFrom (initGame m ci ii t0) mouseOnScreen g) :
    g.screen.top_left.x ≤ g.cursor_pos.x ∧
    g.cursor_pos.x < g.screen.top_left.x + g.screen.size.x ∧
    g.screen.top_left.y ≤ g.cursor_pos.y ∧
    g.cursor_pos.y < g.screen.top_left.y + g.screen.size.y := by
  have key : (viewportInMap g ∧ g.map = m) ∧ cursorInViewport g := by
    induction hr with
    | init =>
        refine ⟨⟨⟨?_, ?_, hx, hy⟩, rfl⟩, ⟨?_, ?_, ?_, ?_⟩⟩ <;>
          dsimp only [initGame] <;> omega
    | tail env e g hr hp ih =>
        refine ⟨⟨step_viewportInMap env e g ih.1.1,
          (step_map env e g).trans ih.1.2⟩, ?_⟩
        exact step_cursorInViewport env e g
          (by rw [ih.1.2]; exact hbx) (by rw [ih.1.2]; exact hby)
          ih.1.1 ih.2 hp
  exact key.2

/-- Witness for the amended C2: containment at the initial state over the
1x1 map. -/
theorem cursor_containment_invariant_witness :
    unitG0.screen.top_left.x ≤ unitG0.cursor_pos.x ∧
    unitG0.cursor_pos.x < unitG0.screen.top_left.x + unitG0.screen.size.x ∧
    unitG0.screen.top_left.y ≤ unitG0.cursor_pos.y ∧
    unitG0.cursor_pos.y < unitG0.screen.top_left.y + unitG0.screen.size.y :=
  cursor_containment_invariant unitMap none none 0 (by decide) (by decide)
    (by decide) (by decide) unitG0 ReachableFrom.init

/-- C10: processing a ZoomIn event never changes the cursor position, the
cursor image, the infobar image, the last-pan instant or the map grid; only
the viewport may change. -/
theorem zoomIn_frame_property {Img : Type} (env : Env) (g : Game Img) :
    (step env .zoomIn g).1.cursor_pos = g.cursor_pos ∧
    (step env .zoomIn g).1.cursor_image = g.cursor_image ∧
    (step env .zoomIn g).1.infobar_image = g.infobar_image ∧
    (step env .zoomIn g).1.last_mouse_pan = g.last_mouse_pan ∧
    (step env .zoomIn g).1.map = g.map :=
  ⟨rfl, rfl, rfl, rfl, rfl⟩


/-- A 2x4 map whose full-width viewport (4,2) has tiles wider than tall on a
square screen. -/
def wideMap : Grid (Tile Unit) := ⟨2, 4, fun _ _ => sampleTile⟩

/-- A state over `wideMap` with the viewport covering the whole map. -/
def wideG : Game Unit :=
  { cursor_pos := ⟨0, 0⟩, map := wideMap, cursor_image := none,
    infobar_image := none, screen := ⟨⟨0, 0⟩, ⟨4, 2⟩⟩, last_mouse_pan := 0 }

/-- C1 counterexample: on a 30x30 screen with viewport extent (4,2) the
vertical tile pixel size (15) is ≥ the horizontal one (7.5) and the vertical
extent exceeds 1, yet ZoomIn leaves the vertical extent unchanged: the
handler keys the vertical shrink on the HORIZONTAL tile size dominating, not
the vertical one as the claim states. -/
theorem zoomIn_axis_choice_counterexample :
    (wideG.get_tile_size (env30 0)).y ≥ (wideG.get_tile_size (env30 0)).x ∧
    wideG.screen.size.y > 1 ∧
    (step (env30 0) .zoomIn wideG).1.screen.size.y = wideG.screen.size.y :=
  of_decide_eq_true (by with_unfolding_all rfl)

/-- C1 amended: ZoomIn shrinks the vertical extent by one tile exactly when
the horizontal tile pixel size is ≥ the vertical one and the vertical extent
exceeds 1, and symmetrically shrinks the horizontal extent exactly when the
vertical tile pixel size is ≥ the horizontal one and the horizontal extent
exceeds 1 (both axes when the tile sizes are equal); after shrinking an
axis, the viewport origin advances by one tile there exactly when the
cursor's pre-shrink offset exceeds half the new extent; the handler ends
with a full redraw of the updated state and no extent drops below 1. -/
theorem zoomIn_behaviour {Img : Type} (env : Env) (g : Game Img)
    (hsx : 1 ≤ g.screen.size.x) (hsy : 1 ≤ g.screen.size.y) :
    ((step env .zoomIn g).1.screen.size.y =
      if (g.get_tile_size env).x ≥ (g.get_tile_size env).y ∧
          g.screen.size.y > 1
      then g.screen.size.y - 1 else g.screen.size.y) ∧
    ((step env .zoomIn g).1.screen.top_left.y =
      if (g.get_tile_size env).x ≥ (g.get_tile_size env).y ∧
          g.screen.size.y > 1
      then
        if (g.cursor_pos - g.screen.top_left).y > (g.screen.size.y - 1) / 2
        then g.screen.top_left.y + 1 else g.screen.top_left.y
      else g.screen.top_left.y) ∧
    ((step env .zoomIn g).1.screen.size.x =
      if (g.get_tile_size env).y ≥ (g.get_tile_size env).x ∧
          g.screen.size.x > 1
      then g.screen.size.x - 1 else g.screen.size.x) ∧
    ((step env .zoomIn g).1.screen.top_left.x =
      if (g.get_tile_size env).y ≥ (g.get_tile_size env).x ∧
          g.screen.size.x > 1
      then
        if (g.cursor_pos - g.screen.top_left).x > (g.screen.size.x - 1) / 2
        then g.screen.top_left.x + 1 else g.screen.top_left.x
      else g.screen.top_left.x) ∧
    (step env .zoomIn g).2 = (step env .zoomIn g).1.redraw_calls env ∧
    1 ≤ (step env .zoomIn g).1.screen.size.x ∧
    1 ≤ (step env .zoomIn g).1.screen.size.y := by
  refine ⟨zoomIn_size_y env g, zoomIn_top_left_y env g, zoomIn_size_x env g,
    zoomIn_top_left_x env g, rfl, ?_, ?_⟩
  · rw [zoomIn_size_x env g]
    split_ifs with h
    · have := h.2; omega
    · exact hsx
  · rw [zoomIn_size_y env g]
    split_ifs with h
    · have := h.2; omega
    · exact hsy

/-- Witness for the amended C1: the floor consequence at `wideG`. -/
theorem zoomIn_behaviour_witness :
    1 ≤ (step (env30 0) .zoomIn wideG).1.screen.size.x ∧
    1 ≤ (step (env30 0) .zoomIn wideG).1.screen.size.y :=
  ⟨(zoomIn_behaviour (env30 0) wideG (by decide) (by decide)).2.2.2.2.2.1,
   (zoomIn_behaviour (env30 0) wideG (by decide) (by decide)).2.2.2.2.2.2⟩

/-- C4: for each directional event, with the cursor inside the map: at the
corresponding map edge the event is a no-op (state unchanged, no draw
calls); at the viewport's trailing edge, cursor and viewport origin shift by
one tile in that direction with a full redraw; otherwise only the cursor
moves one tile, with the incremental redraw of `move_cursor` (old tile's
terrain, cursor at the new position, infobar). -/
theorem directional_move_behaviour {Img : Type} (env : Env) (g : Game Img)
    (hcx : g.cursor_pos.x < g.map.cols) (hcy : g.cursor_pos.y < g.map.rows) :
    (g.cursor_pos.x = g.map.cols - 1 → step env .right g = (g, [])) ∧
    (g.cursor_pos.x ≠ g.map.cols - 1 → g.cursor_pos.x = g.screen.right - 1 →
      (step env .right g).1 =
        { g with cursor_pos := ⟨g.cursor_pos.x + 1, g.cursor_pos.y⟩,
                 screen := { g.screen with
                   top_left := ⟨g.screen.top_left.x + 1,
                     g.screen.top_left.y⟩ } } ∧
      (step env .right g).2 = (step env .right g).1.redraw_calls env) ∧
    (g.cursor_pos.x ≠ g.map.cols - 1 → g.cursor_pos.x ≠ g.screen.right - 1 →
      (step env .right g).1 =
        { g with cursor_pos := ⟨g.cursor_pos.x + 1, g.cursor_pos.y⟩ } ∧
      (step env .right g).2 =
        (g.move_cursor env ⟨g.cursor_pos.x + 1, g.cursor_pos.y⟩).2) ∧
    (g.cursor_pos.x = 0 → step env .left g = (g, [])) ∧
    (g.cursor_pos.x ≠ 0 → g.cursor_pos.x = g.screen.left →
      (step env .left g).1 =
        { g with cursor_pos := ⟨g.cursor_pos.x - 1, g.cursor_pos.y⟩,
                 screen := { g.screen with
                   top_left := ⟨g.screen.top_left.x - 1,
                     g.screen.top_left.y⟩ } } ∧
      (step env .left g).2 = (step env .left g).1.redraw_calls env) ∧
    (g.cursor_pos.x ≠ 0 → g.cursor_pos.x ≠ g.screen.left →
      (step env .left g).1 =
        { g with cursor_pos := ⟨g.cursor_pos.x - 1, g.cursor_pos.y⟩ } ∧
      (step env .left g).2 =
        (g.move_cursor env ⟨g.cursor_pos.x - 1, g.cursor_pos.y⟩).2) ∧
    (g.cursor_pos.y = 0 → step env .up g = (g, [])) ∧
    (g.cursor_pos.y ≠ 0 → g.cursor_pos.y = g.screen.top →
      (step env .up g).1 =
        { g with cursor_pos := ⟨g.cursor_pos.x, g.cursor_pos.y - 1⟩,
                 screen := { g.screen with
                   top_left := ⟨g.screen.top_left.x,
                     g.screen.top_left.y - 1⟩ } } ∧
      (step env .up g).2 = (step env .up g).1.redraw_calls env) ∧
    (g.cursor_pos.y ≠ 0 → g.cursor_pos.y ≠ g.screen.top →
      (step env .up g).1 =
        { g with cursor_pos := ⟨g.cursor_pos.x, g.cursor_pos.y - 1⟩ } ∧
      (step env .up g).2 =
        (g.move_cursor env ⟨g.cursor_pos.x, g.cursor_pos.y - 1⟩).2) ∧
    (g.cursor_pos.y = g.map.rows - 1 → step env .down g = (g, [])) ∧
    (g.cursor_pos.y ≠ g.map.rows - 1 → g.cursor_pos.y = g.screen.bottom - 1 →
      (step env .down g).1 =
        { g with cursor_pos := ⟨g.cursor_pos.x, g.cursor_pos.y + 1⟩,
                 screen := { g.screen with
                   top_left := ⟨g.screen.top_left.x,
                     g.screen.top_left.y + 1⟩ } } ∧
      (step env .down g).2 = (step env .down g).1.redraw_calls env) ∧
    (g.cursor_pos.y ≠ g.map.rows - 1 → g.cursor_pos.y ≠ g.screen.bottom - 1 →
      (step env .down g).1 =
        { g with cursor_pos := ⟨g.cursor_pos.x, g.cursor_pos.y + 1⟩ } ∧
      (step env .down g).2 =
        (g.move_cursor env ⟨g.cursor_pos.x, g.cursor_pos.y + 1⟩).2) := by
  refine ⟨?_, ?_, ?_, ?_, ?_, ?_, ?_, ?_, ?_, ?_, ?_, ?_⟩
  · intro h
    simp only [step]
    rw [if_neg (by omega)]
  · intro h1 h2
    simp only [step]
    rw [if_pos (by omega), if_pos h2]
    exact ⟨rfl, rfl⟩
  · intro h1 h2
    simp only [step]
    rw [if_pos (by omega), if_neg h2]
    exact ⟨rfl, rfl⟩
  · intro h
    simp only [step]
    rw [if_neg (by omega)]
  · intro h1 h2
    simp only [step]
    rw [if_pos (by omega), if_pos h2]
    exact ⟨rfl, rfl⟩
  · intro h1 h2
    simp only [step]
    rw [if_pos (by omega), if_neg h2]
    exact ⟨rfl, rfl⟩
  · intro h
    simp only [step]
    rw [if_neg (by omega)]
  · intro h1 h2
    simp only [step]
    rw [if_pos (by omega), if_pos h2]
    exact ⟨rfl, rfl⟩
  · intro h1 h2
    simp only [step]
    rw [if_pos (by omega), if_neg h2]
    exact ⟨rfl, rfl⟩
  · intro h
    simp only [step]
    rw [if_neg (by omega)]
  · intro h1 h2
    simp only [step]
    rw [if_pos (by omega), if_pos h2]
    exact ⟨rfl, rfl⟩
  · intro h1 h2
    simp only [step]
    rw [if_pos (by omega), if_neg h2]
    exact ⟨rfl, rfl⟩

/-- Witness for C4: the interior Right move at the initial state of the 3x3
map. -/
theorem directional_move_behaviour_witness :
    (step (env30 0) .right threeG0).1 =
      { threeG0 with cursor_pos := ⟨1, 0⟩ } ∧
    (step (env30 0) .right threeG0).2 =
      (threeG0.move_cursor (env30 0) ⟨1, 0⟩).2 :=
  (directional_move_behaviour (env30 0) threeG0 (by decide)
    (by decide)).2.2.1 (by decide) (by decide)


/-- C5: a MouseMove is handled as the debounced edge pan followed,
regardless of whether the pan fired, by cursor tracking, with the drawing
calls of both concatenated; the pan fires only when the elapsed time since
`last_mouse_pan` strictly exceeds the 100ms threshold; its four edge
conditions (pointer within half a tile of the screen edge and the viewport
not flush with the map boundary on that side) are tried in priority order
top, bottom, left, right, and the first match shifts the viewport origin by
exactly one tile, performs a full redraw of the shifted state and resets
`last_mouse_pan` to the current instant; tracking moves the cursor to the
converted map coordinate via the incremental `move_cursor` path exactly when
the lossy conversion succeeds and the coordinate is within the map. -/
theorem mouseMove_behaviour {Img : Type} (env : Env) (g : Game Img)
    (pos : Vec2 ℤ) :
    step env (.mouseMove pos) g =
      (((g.edge_pan env pos).1.cursor_track env pos).1,
       (g.edge_pan env pos).2 ++
         ((g.edge_pan env pos).1.cursor_track env pos).2) ∧
    (¬ mouse_pan_delay < env.now - g.last_mouse_pan →
      g.edge_pan env pos = (g, [])) ∧
    (mouse_pan_delay < env.now - g.last_mouse_pan →
      ((Vec2.icast pos).y < ((g.get_tile_size env).divScalar 2).y ∧
          g.screen.top > 0 →
        g.edge_pan env pos =
          ({ g with
              screen := { g.screen with
                top_left := ⟨g.screen.top_left.x,
                  g.screen.top_left.y - 1⟩ },
              last_mouse_pan := env.now },
           Game.redraw_calls env { g with
              screen := { g.screen with
                top_left := ⟨g.screen.top_left.x,
                  g.screen.top_left.y - 1⟩ },
              last_mouse_pan := env.now })) ∧
      (¬((Vec2.icast pos).y < ((g.get_tile_size env).divScalar 2).y ∧
          g.screen.top > 0) →
        ((Vec2.icast pos).y >
            (env.screenSize - (g.get_tile_size env).divScalar 2).y ∧
          g.screen.bottom < g.get_map_size.y →
          g.edge_pan env pos =
            ({ g with
                screen := { g.screen with
                  top_left := ⟨g.screen.top_left.x,
                    g.screen.top_left.y + 1⟩ },
                last_mouse_pan := env.now },
             Game.redraw_calls env { g with
                screen := { g.screen with
                  top_left := ⟨g.screen.top_left.x,
                    g.screen.top_left.y + 1⟩ },
                last_mouse_pan := env.now })) ∧
        (¬((Vec2.icast pos).y >
              (env.screenSize - (g.get_tile_size env).divScalar 2).y ∧
            g.screen.bottom < g.get_map_size.y) →
          ((Vec2.icast pos).x < ((g.get_tile_size env).divScalar 2).x ∧
              g.screen.left > 0 →
            g.edge_pan env pos =
              ({ g with
                  screen := { g.screen with
                    top_left := ⟨g.screen.top_left.x - 1,
                      g.screen.top_left.y⟩ },
                  last_mouse_pan := env.now },
               Game.redraw_calls env { g with
                  screen := { g.screen with
                    top_left := ⟨g.screen.top_left.x - 1,
                      g.screen.top_left.y⟩ },
                  last_mouse_pan := env.now })) ∧
          (¬((Vec2.icast pos).x < ((g.get_tile_size env).divScalar 2).x ∧
              g.screen.left > 0) →
            ((Vec2.icast pos).x >
                (env.screenSize - (g.get_tile_size env).divScalar 2).x ∧
              g.screen.right < g.get_map_size.x →
              g.edge_pan env pos =
                ({ g with
                    screen := { g.screen with
                      top_left := ⟨g.screen.top_left.x + 1,
                        g.screen.top_left.y⟩ },
                    last_mouse_pan := env.now },
                 Game.redraw_calls env { g with
                    screen := { g.screen with
                      top_left := ⟨g.screen.top_left.x + 1,
                        g.screen.top_left.y⟩ },
                    last_mouse_pan := env.now })) ∧
            (¬((Vec2.icast pos).x >
                  (env.screenSize - (g.get_tile_size env).divScalar 2).x ∧
                g.screen.right < g.get_map_size.x) →
              g.edge_pan env pos = (g, [])))))) ∧
    (∀ p, (g.edge_pan env pos).1.get_map_pos env pos = some p →
      (p.x ≤ g.map.cols - 1 ∧ p.y ≤ g.map.rows - 1 →
        (g.edge_pan env pos).1.cursor_track env pos =
          (g.edge_pan env pos).1.move_cursor env p) ∧
      (¬(p.x ≤ g.map.cols - 1 ∧ p.y ≤ g.map.rows - 1) →
        (g.edge_pan env pos).1.cursor_track env pos =
          ((g.edge_pan env pos).1, []))) ∧
    ((g.edge_pan env pos).1.get_map_pos env pos = none →
      (g.edge_pan env pos).1.cursor_track env pos =
        ((g.edge_pan env pos).1, [])) := by
  refine ⟨rfl, ?_, ?_, ?_, ?_⟩
  · intro h
    unfold Game.edge_pan
    rw [if_neg h]
  · intro hdelay
    refine ⟨?_, ?_⟩
    · intro hct
      unfold Game.edge_pan
      rw [if_pos hdelay]
      dsimp only
      rw [if_pos hct]
    · intro hct
      refine ⟨?_, ?_⟩
      · intro hcb
        unfold Game.edge_pan
        rw [if_pos hdelay]
        dsimp only
        rw [if_neg hct, if_pos hcb]
      · intro hcb
        refine ⟨?_, ?_⟩
        · intro hcl
          unfold Game.edge_pan
          rw [if_pos hdelay]
          dsimp only
          rw [if_neg hct, if_neg hcb, if_pos hcl]
        · intro hcl
          refine ⟨?_, ?_⟩
          · intro hcr
            unfold Game.edge_pan
            rw [if_pos hdelay]
            dsimp only
            rw [if_neg hct, if_neg hcb, if_neg hcl, if_pos hcr]
          · intro hcr
            unfold Game.edge_pan
            rw [if_pos hdelay]
            dsimp only
            rw [if_neg hct, if_neg hcb, if_neg hcl, if_neg hcr]
  · intro p hp
    have hm := edge_pan_map env g pos
    constructor
    · intro hb
      unfold Game.cursor_track
      rw [hp]
      dsimp only
      rw [if_pos (by rw [hm]; exact hb)]
    · intro hb
      unfold Game.cursor_track
      rw [hp]
      dsimp only
      rw [if_neg (by rw [hm]; exact hb)]
  · intro hp
    unfold Game.cursor_track
    rw [hp]

/-- Witness for C5: the debounce consequence 50ms after start. -/
theorem mouseMove_behaviour_witness :
    threeG0.edge_pan (env30 50000000) ⟨1, 1⟩ = (threeG0, []) :=
  (mouseMove_behaviour (env30 50000000) threeG0 ⟨1, 1⟩).2.1
    (of_decide_eq_true (by with_unfolding_all rfl))


theorem lossyCastU32_natCast (n : ℕ) (h : n < u32Bound) :
    lossyCastU32 (n : ℚ) = some n := by
  have h0 : (0 : ℚ) ≤ (n : ℚ) := Nat.cast_nonneg n
  have h1 : (n : ℚ) < (u32Bound : ℚ) := by exact_mod_cast h
  unfold lossyCastU32
  rw [if_pos ⟨by linarith, h1⟩]
  rw [show ((n : ℚ)).floor = ⌊(n : ℚ)⌋ from rfl, Int.floor_natCast]
  rw [Int.toNat_natCast]

/-- C6: for a tile coordinate inside the map and inside the viewport (on a
positive screen over a map that fits in `u32`), converting the top-left
corner of its screen rectangle back through `get_map_pos` recovers the
coordinate. -/
theorem screen_pos_round_trip {Img : Type} (env : Env) (g : Game Img)
    (t : Vec2 ℕ)
    (hsx : 0 < env.screenSize.x) (hsy : 0 < env.screenSize.y)
    (h1 : g.screen.top_left.x ≤ t.x) (h2 : g.screen.top_left.y ≤ t.y)
    (h3 : t.x < g.screen.top_left.x + g.screen.size.x)
    (h4 : t.y < g.screen.top_left.y + g.screen.size.y)
    (h5 : t.x < g.map.cols) (h6 : t.y < g.map.rows)
    (hbx : g.map.cols ≤ u32Bound) (hby : g.map.rows ≤ u32Bound) :
    g.get_map_pos_screen env (g.get_screen_pos env t).top_left = some t := by
  have hszx : (0 : ℚ) < (g.screen.size.x : ℚ) := by
    have : 1 ≤ g.screen.size.x := by omega
    exact_mod_cast this
  have hszy : (0 : ℚ) < (g.screen.size.y : ℚ) := by
    have : 1 ≤ g.screen.size.y := by omega
    exact_mod_cast this
  have htx : env.screenSize.x / (g.screen.size.x : ℚ) ≠ 0 :=
    ne_of_gt (div_pos hsx hszx)
  have hty : env.screenSize.y / (g.screen.size.y : ℚ) ≠ 0 :=
    ne_of_gt (div_pos hsy hszy)
  unfold Game.get_map_pos_screen Game.get_screen_pos Game.get_tile_size
  dsimp only
  rw [show (env.screenSize.pdiv g.screen.size.qcast).pmul
        ((t - g.screen.top_left).qcast) =
      ⟨env.screenSize.x / (g.screen.size.x : ℚ) *
        ((t.x - g.screen.top_left.x : ℕ) : ℚ),
       env.screenSize.y / (g.screen.size.y : ℚ) *
        ((t.y - g.screen.top_left.y : ℕ) : ℚ)⟩ from rfl]
  rw [show (Vec2.mk
        (env.screenSize.x / (g.screen.size.x : ℚ) *
          ((t.x - g.screen.top_left.x : ℕ) : ℚ))
        (env.screenSize.y / (g.screen.size.y : ℚ) *
          ((t.y - g.screen.top_left.y : ℕ) : ℚ))).pdiv
        (env.screenSize.pdiv g.screen.size.qcast) =
      ⟨env.screenSize.x / (g.screen.size.x : ℚ) *
        ((t.x - g.screen.top_left.x : ℕ) : ℚ) /
        (env.screenSize.x / (g.screen.size.x : ℚ)),
       env.screenSize.y / (g.screen.size.y : ℚ) *
        ((t.y - g.screen.top_left.y : ℕ) : ℚ) /
        (env.screenSize.y / (g.screen.size.y : ℚ))⟩ from rfl]
  rw [mul_div_cancel_left₀ _ htx, mul_div_cancel_left₀ _ hty]
  unfold Vec2.lossyCast
  rw [lossyCastU32_natCast (t.x - g.screen.top_left.x) (by omega),
    lossyCastU32_natCast (t.y - g.screen.top_left.y) (by omega)]
  dsimp only [Option.map]
  rw [Nat.mod_eq_of_lt (by omega), Nat.mod_eq_of_lt (by omega)]
  have ex : t.x - g.screen.top_left.x + g.screen.top_left.x = t.x := by omega
  have ey : t.y - g.screen.top_left.y + g.screen.top_left.y = t.y := by omega
  rw [ex, ey]

/-- Witness for C6: the round trip at tile (1,1) of the 3x3 initial state. -/
theorem screen_pos_round_trip_witness :
    threeG0.get_map_pos_screen (env30 0)
      (threeG0.get_screen_pos (env30 0) ⟨1, 1⟩).top_left = some ⟨1, 1⟩ :=
  screen_pos_round_trip (env30 0) threeG0 ⟨1, 1⟩
    (of_decide_eq_true (by with_unfolding_all rfl))
    (of_decide_eq_true (by with_unfolding_all rfl))
    (by decide) (by decide) (by decide) (by decide) (by decide) (by decide)
    (by decide) (by decide)


/-- Two distinct tile types sharing one image path, over a 1x1 grid. -/
def dupTileTypes : List TileType :=
  [⟨"grass", "shared.png"⟩, ⟨"water", "shared.png"⟩]

/-- The decoded map file with the duplicated image path. -/
def dupMapFile : MapFile := ⟨dupTileTypes, ⟨1, 1, fun _ _ => 0⟩⟩

/-- A bootstrap input whose fetch and decode succeed with `dupMapFile` and
whose image fetches all fail. -/
def dupBoot : BootInput Unit Unit :=
  ⟨.ok (), fun _ => .ok dupMapFile, fun _ => none⟩

/-- C7 counterexample: two distinct tile types share the path "shared.png",
yet the bootstrap issues two image fetches for that path, not one: the fetch
loop iterates over tile types, and only the resulting image map is keyed by
path. -/
theorem image_fetch_dedup_counterexample :
    TileType.mk "grass" "shared.png" ≠ TileType.mk "water" "shared.png" ∧
    dupMapFile.tile_types =
      [⟨"grass", "shared.png"⟩, ⟨"water", "shared.png"⟩] ∧
    (runBootstrap dupBoot (env30 0)).1.count (Fetch.image "shared.png") =
      2 := by
  refine ⟨by decide, rfl, by decide⟩

/-- C7 amended: after a successful fetch and decode the bootstrap issues the
three base fetches followed by one image fetch per tile type in table order
(a path shared by k tile types is fetched k times); the number of image
fetches of a path among the per-tile-type fetches equals the number of tile
types carrying that path. -/
theorem image_fetch_per_tile_type {F Img : Type} (inp : BootInput F Img)
    (env : Env) (f : F) (mf : MapFile) (p : String)
    (hf : inp.file_result = .ok f) (hd : inp.decode f = .ok mf) :
    (runBootstrap inp env).1 =
      [Fetch.file MAP_FILE, Fetch.image CURSOR_IMAGE,
        Fetch.image INFO_BAR_IMAGE] ++
        mf.tile_types.map (fun tt => Fetch.image tt.image) ∧
    (mf.tile_types.map (fun tt => Fetch.image tt.image)).count
        (Fetch.image p) =
      (mf.tile_types.filter (fun tt => tt.image = p)).length := by
  constructor
  · unfold runBootstrap
    rw [hf]
    dsimp only
    rw [hd]
  · induction mf.tile_types with
    | nil => rfl
    | cons tt rest ih =>
        by_cases hpp : tt.image = p
        · simp [List.count_cons, List.filter_cons, hpp, ih]
        · simp [List.count_cons, List.filter_cons, hpp, ih]

/-- Witness for the amended C7: the fetch list of `dupBoot`. -/
theorem image_fetch_per_tile_type_witness :
    (runBootstrap dupBoot (env30 0)).1 =
      [Fetch.file MAP_FILE, Fetch.image CURSOR_IMAGE,
        Fetch.image INFO_BAR_IMAGE] ++
        dupMapFile.tile_types.map (fun tt => Fetch.image tt.image) :=
  (image_fetch_per_tile_type dupBoot (env30 0) () dupMapFile "shared.png"
    rfl rfl).1

/-- C8: resolving a grid cell whose tile-type index is out of range logs the
diagnostic and substitutes the `{image: none, name: "ERROR"}` placeholder;
every in-range index resolves to the table entry's name together with the
image-map lookup of its path; and map generation is total, preserving the
grid dimensions and applying this resolution to every cell. -/
theorem tile_resolution_degradation {Img : Type}
    (image_map : String → Option Img) (tile_types : List TileType)
    (grid : Grid ℕ) (i : ℕ) :
    (tile_types.length ≤ i →
      resolveCell image_map tile_types i =
        (⟨none, "ERROR"⟩, ["Error: Invalid map file"])) ∧
    (∀ tt, tile_types.get? i = some tt →
      resolveCell image_map tile_types i =
        (⟨image_map tt.image, tt.name⟩, [])) ∧
    (generateMap image_map tile_types grid).rows = grid.rows ∧
    (generateMap image_map tile_types grid).cols = grid.cols ∧
    (∀ r c, (generateMap image_map tile_types grid).data r c =
      (resolveCell image_map tile_types (grid.data r c)).1) := by
  refine ⟨?_, ?_, rfl, rfl, fun r c => rfl⟩
  · intro h
    unfold resolveCell get_tile
    rw [List.get?_eq_none.mpr h]
    rfl
  · intro tt h
    unfold resolveCell get_tile
    rw [h]
    rfl

/-- Witness for C8: the placeholder at the out-of-range index 5 and the
resolution of the in-range index 0. -/
theorem tile_resolution_degradation_witness :
    resolveCell (fun _ => (none : Option Unit)) dupTileTypes 5 =
      (⟨none, "ERROR"⟩, ["Error: Invalid map file"]) ∧
    resolveCell (fun _ => (none : Option Unit)) dupTileTypes 0 =
      (⟨none, "grass"⟩, []) :=
  ⟨(tile_resolution_degradation (fun _ => none) dupTileTypes
      ⟨1, 1, fun _ _ => 0⟩ 5).1 (by decide),
   (tile_resolution_degradation (fun _ => none) dupTileTypes
      ⟨1, 1, fun _ _ => 0⟩ 0).2.1 ⟨"grass", "shared.png"⟩ rfl⟩

/-- A bootstrap input whose map-file fetch fails. -/
def failBoot : BootInput Unit Unit :=
  ⟨.error "map fetch failed", fun _ => .ok dupMapFile, fun _ => none⟩

/-- C9: if the map-file fetch or its decode fails, `run_internal` returns
the single error value carrying the underlying failure's textual form, the
only fetches issued are the three initial ones, no drawing call is made and
the event loop is never entered, whatever events are queued; and whenever
fetch and decode succeed, bootstrap constructs a game and the run finishes
without error regardless of any missing cursor, infobar or tile images. -/
theorem startup_atomicity {F Img : Type} (inp : BootInput F Img)
    (env0 : Env) (events : List (Env × GEvent)) :
    (∀ e, inp.file_result = .error e →
      run_internal inp env0 events =
        ([Fetch.file MAP_FILE, Fetch.image CURSOR_IMAGE,
          Fetch.image INFO_BAR_IMAGE], [], .error ⟨e⟩)) ∧
    (∀ f e, inp.file_result = .ok f → inp.decode f = .error e →
      run_internal inp env0 events =
        ([Fetch.file MAP_FILE, Fetch.image CURSOR_IMAGE,
          Fetch.image INFO_BAR_IMAGE], [], .error ⟨e⟩)) ∧
    (∀ f mf, inp.file_result = .ok f → inp.decode f = .ok mf →
      ∃ game draws, (runBootstrap inp env0).2 = .ok (game, draws) ∧
        (run_internal inp env0 events).2.2 = .ok ()) := by
  refine ⟨?_, ?_, ?_⟩
  · intro e he
    unfold run_internal runBootstrap
    rw [he]
  · intro f e hf he
    unfold run_internal runBootstrap
    rw [hf]
    dsimp only
    rw [he]
  · intro f mf hf hd
    unfold run_internal runBootstrap
    rw [hf]
    dsimp only
    rw [hd]
    exact ⟨_, _, rfl, rfl⟩

/-- Witness for C9: the failed fetch aborts the run with the error message,
no draws, and the loop never entered even with a queued event. -/
theorem startup_atomicity_witness :
    run_internal failBoot (env30 0) [(env30 0, .right)] =
      ([Fetch.file MAP_FILE, Fetch.image CURSOR_IMAGE,
        Fetch.image INFO_BAR_IMAGE], [], .error ⟨"map fetch failed"⟩) :=
  (startup_atomicity failBoot (env30 0) [(env30 0, .right)]).1
    "map fetch failed" rfl

end AlemianSaga
